import Mathlib

/-
  Verification of the asynchronous variable-length serial frame acquisition
  subsystem of the gd32h759im firmware (src/BSP/USART/usart.c,
  src/BSP/TIMER/timer.c, src/BSP/USART/usart.h).

  The firmware is built with BSP_USART_SUPPORT_DMA = 1 (usart.h line 68), so the
  DMA-circular branches of the interrupt handlers are the compiled code; those
  branches are the ones embedded here.

  Per link the relevant mutable state is:
    - the receive buffer g_*_recv_buff[C+1]           (modelled as buff : Nat → Nat)
    - g_*_recv_length : uint16                        (recvLength : Nat, always ≤ C = 1024)
    - g_*_recv_complete_flag : uint8                  (completeFlag : Nat)
    - the DMA channel remaining-transfer counter CNDT (dmaCount : Nat), programmed to C,
      decremented once per received byte, reloaded to C in circular mode when it hits 0
    - the DMA full-transfer-finish flag FTF           (ftf : Bool), raised at reload
    - the DMA channel enable bit                      (dmaEnabled : Bool)
    - the single-shot confirmation timer TIMERx       (timerArmed : Bool); the idle
      handler zeroes its counter and enables it, and in single-pulse mode the update
      event that raises the interrupt also clears the enable bit.
-/

namespace Gd32Frame

/-- Receive buffer capacity of the host/debug USART0 link, usart.h line 99. -/
def BSP_USART_RECEIVE_LENGTH : Nat := 1024

/-- Receive buffer capacity of the terminal USART1 link, usart.h line 112. -/
def USART_TERMINAL_RECEIVE_LENGTH : Nat := 1024

/-- Receive buffer capacity of the wireless-module UART4 link, usart.h line 128. -/
def UART4_RECEIVE_LENGTH : Nat := 1024

/-- State of one frame link: the globals of usart.c plus the hardware registers
(DMA remaining counter, DMA full-transfer flag, DMA channel enable, confirmation
timer enable) that the handlers read and write. -/
structure LinkState where
  buff : Nat → Nat
  recvLength : Nat
  completeFlag : Nat
  dmaCount : Nat
  ftf : Bool
  dmaEnabled : Bool
  timerArmed : Bool

/-- Pointwise update of a buffer modelled as a function. -/
def updBuff (f : Nat → Nat) (i v : Nat) : Nat → Nat :=
  fun j => if j = i then v else f j

/-- One byte moved by the circular-mode DMA engine: written at offset
C - CNDT from the buffer origin, CNDT decremented; when CNDT reaches 0 it
reloads to C and the FTF flag is raised (hardware behaviour the handlers in
usart.c/timer.c rely on). A disabled channel moves nothing. -/
def dmaPush (C : Nat) (b : Nat) (s : LinkState) : LinkState :=
  if s.dmaEnabled then
    if s.dmaCount - 1 = 0 then
      { s with buff := updBuff s.buff (C - s.dmaCount) b, dmaCount := C, ftf := true }
    else
      { s with buff := updBuff s.buff (C - s.dmaCount) b, dmaCount := s.dmaCount - 1 }
  else s

/-- The transport moves a burst of bytes, one DMA transfer per byte. -/
def dmaPushList (C : Nat) (bs : List Nat) (s : LinkState) : LinkState :=
  match bs with
  | [] => s
  | b :: rest => dmaPushList C rest (dmaPush C b s)

/-- Link state right after usart_init / usart_terminal_init / uart4_init:
zero-initialised globals, DMA programmed with number = C and enabled
(usart.c lines 111-134), confirmation timer configured but disabled
(usart.c lines 189-190). -/
def linkInit (C : Nat) : LinkState :=
  { buff := fun _ => 0
    recvLength := 0
    completeFlag := 0
    dmaCount := C
    ftf := false
    dmaEnabled := true
    timerArmed := false }

/-- Idle-line branch of the USART interrupt handler, DMA path
(usart.c lines 242-252, and its twins at lines 434-444 and 607-617):
store C - CNDT into the length variable; if that is 0 and FTF is clear,
return; otherwise zero the confirmation timer counter and enable it. -/
def idleIrqBody (C : Nat) (s : LinkState) : LinkState :=
  if C - s.dmaCount = 0 ∧ s.ftf = false then
    { s with recvLength := C - s.dmaCount }
  else
    { s with recvLength := C - s.dmaCount, timerArmed := true }

/-- Confirmation-timer update-interrupt handler, DMA path
(timer.c lines 213-235, and its twins at lines 246-263 and 275-292).
The update event of the single-pulse timer clears its enable bit; the handler
then re-checks the stored length against the current C - CNDT, disambiguates
the full-buffer case (0 becomes C), writes the string terminator at the final
length, and raises the completion flag. -/
def timerIrqBody (C : Nat) (s : LinkState) : LinkState :=
  if s.timerArmed then
    if s.recvLength = C - s.dmaCount then
      if s.recvLength = 0 then
        { s with timerArmed := false, recvLength := C,
                 buff := updBuff s.buff C 0, completeFlag := 1 }
      else
        { s with timerArmed := false,
                 buff := updBuff s.buff s.recvLength 0, completeFlag := 1 }
    else
      { s with timerArmed := false }
  else s

/-- dma_channel_disable on the link's RX channel. -/
def dmaChannelOff (s : LinkState) : LinkState := { s with dmaEnabled := false }

/-- dma_channel_enable on the link's RX channel. -/
def dmaChannelOn (s : LinkState) : LinkState := { s with dmaEnabled := true }

/-- Zeroing of the two per-link globals (usart.c lines 202-203). -/
def recvVarsClear (s : LinkState) : LinkState :=
  { s with recvLength := 0, completeFlag := 0 }

/-- DMA_INTC write clearing the channel's interrupt flags, FTF included
(usart.c line 204). -/
def dmaIntFlagsClear (s : LinkState) : LinkState := { s with ftf := false }

/-- dma_transfer_number_config: reprogram CNDT to C (usart.c line 205). -/
def dmaNumberConfig (C : Nat) (s : LinkState) : LinkState := { s with dmaCount := C }

/-- usart_rx_dma_receive_reset (usart.c lines 199-207) and its per-link twins
(lines 393-401 and 566-574): disable the channel, zero length and flag, clear
the DMA flags, reprogram the counter to C, re-enable the channel — in that
order. -/
def rxDmaResetBody (C : Nat) (s : LinkState) : LinkState :=
  dmaChannelOn (dmaNumberConfig C (dmaIntFlagsClear (recvVarsClear (dmaChannelOff s))))

/-- The three frame links of the firmware: USART0 (host/debug), USART1
(terminal), UART4 (wireless module), each with its own globals, DMA channel
and confirmation timer. -/
structure SystemState where
  usart0 : LinkState
  terminal : LinkState
  uart4 : LinkState

/-- USART0 idle interrupt handler (usart.c lines 239-252, DMA branch):
touches only the USART0 link's globals, DMA0 CH0 and TIMER5. -/
def BSP_USART_IRQHandler (g : SystemState) : SystemState :=
  { g with usart0 := idleIrqBody BSP_USART_RECEIVE_LENGTH g.usart0 }

/-- USART1 idle interrupt handler (usart.c lines 432-445): touches only the
terminal link's globals, DMA0 CH2 and TIMER6. -/
def USART1_IRQHandler (g : SystemState) : SystemState :=
  { g with terminal := idleIrqBody USART_TERMINAL_RECEIVE_LENGTH g.terminal }

/-- UART4 idle interrupt handler (usart.c lines 605-618): touches only the
UART4 link's globals, DMA0 CH4 and TIMER15. -/
def UART4_IRQHandler (g : SystemState) : SystemState :=
  { g with uart4 := idleIrqBody UART4_RECEIVE_LENGTH g.uart4 }

/-- TIMER5 update interrupt handler (timer.c lines 211-236, DMA branch):
finalizes the USART0 link only. -/
def TIMER5_DAC_UDR_IRQHandler (g : SystemState) : SystemState :=
  { g with usart0 := timerIrqBody BSP_USART_RECEIVE_LENGTH g.usart0 }

/-- TIMER6 update interrupt handler (timer.c lines 244-264): finalizes the
terminal link only. -/
def TIMER6_IRQHandler (g : SystemState) : SystemState :=
  { g with terminal := timerIrqBody USART_TERMINAL_RECEIVE_LENGTH g.terminal }

/-- TIMER15 update interrupt handler (timer.c lines 272-293): finalizes the
UART4 link only. -/
def TIMER15_IRQHandler (g : SystemState) : SystemState :=
  { g with uart4 := timerIrqBody UART4_RECEIVE_LENGTH g.uart4 }

/-- usart_rx_dma_receive_reset (usart.c lines 199-207) acting on the system:
re-arms the USART0 link only. -/
def usart_rx_dma_receive_reset (g : SystemState) : SystemState :=
  { g with usart0 := rxDmaResetBody BSP_USART_RECEIVE_LENGTH g.usart0 }

/-- usart_terminal_rx_dma_receive_reset (usart.c lines 393-401): re-arms the
terminal link only. -/
def usart_terminal_rx_dma_receive_reset (g : SystemState) : SystemState :=
  { g with terminal := rxDmaResetBody USART_TERMINAL_RECEIVE_LENGTH g.terminal }

/-- uart4_rx_dma_receive_reset (usart.c lines 566-574): re-arms the UART4
link only. -/
def uart4_rx_dma_receive_reset (g : SystemState) : SystemState :=
  { g with uart4 := rxDmaResetBody UART4_RECEIVE_LENGTH g.uart4 }

/-- One send/silence cycle on a link: the transport moves a burst of bytes,
the idle-line event fires, then the confirmation timer elapses with no
further bytes or idle events. -/
def sendSilenceCycle (C : Nat) (bs : List Nat) (s : LinkState) : LinkState :=
  timerIrqBody C (idleIrqBody C (dmaPushList C bs s))

/-- A burst, a short pause with an idle event, a second burst, a second idle
event: the debounce scenario of the spec, before the final timer elapse. -/
def twoBurstDebounce (C : Nat) (bs1 bs2 : List Nat) (s : LinkState) : LinkState :=
  idleIrqBody C (dmaPushList C bs2 (idleIrqBody C (dmaPushList C bs1 s)))

/-- A concrete mid-debounce link state used as an evaluation point: two bytes
moved (CNDT = 1022), snapshot 2 recorded by the idle handler, timer armed. -/
def probeArmed : LinkState :=
  { buff := fun _ => 0
    recvLength := 2
    completeFlag := 0
    dmaCount := 1022
    ftf := false
    dmaEnabled := true
    timerArmed := true }

/-- A concrete completed-frame link state used as an evaluation point: a
5-byte frame finalized (flag raised, terminator at offset 5), consumer about
to re-arm. -/
def probeComplete : LinkState :=
  { buff := fun j => if j = 5 then 0 else 65
    recvLength := 5
    completeFlag := 1
    dmaCount := 1019
    ftf := false
    dmaEnabled := true
    timerArmed := false }

/-- One enabled DMA transfer, seen at logical write offset i (so CNDT = C - i
with i < C): the byte lands at offset i; the counter either reloads to C with
FTF raised (when this was the C-th byte of the pass) or drops to C - (i+1). -/
theorem dmaPush_at (C i b : Nat) (s : LinkState) (hen : s.dmaEnabled = true)
    (hcnt : s.dmaCount = C - i) (hi : i < C) :
    dmaPush C b s =
      if i + 1 = C then
        { s with buff := updBuff s.buff i b, dmaCount := C, ftf := true }
      else
        { s with buff := updBuff s.buff i b, dmaCount := C - (i + 1) } := by
  have hidx : C - (C - i) = i := Nat.sub_sub_self (Nat.le_of_lt hi)
  have harith : C - i - 1 = C - (i + 1) := by omega
  by_cases h : i + 1 = C
  · have hz : C - i - 1 = 0 := by omega
    simp [dmaPush, hen, hcnt, hidx, hz, h]
  · have hz : ¬(C - (i + 1) = 0) := by omega
    simp [dmaPush, hen, hcnt, hidx, harith, hz, h]

/-- Effect of moving a burst of bytes starting at write offset i: the link
globals and timer are untouched, the burst lands at offsets i, i+1, ...,
offsets outside the burst keep their bytes, and the counter/FTF end as the
hardware dictates (reload + FTF exactly when the pass reaches offset C). -/
theorem dmaPushList_go (C : Nat) (bs : List Nat) :
    ∀ (i : Nat) (s : LinkState), s.dmaEnabled = true → s.dmaCount = C - i → i < C →
    i + bs.length ≤ C →
    (dmaPushList C bs s).recvLength = s.recvLength ∧
    (dmaPushList C bs s).completeFlag = s.completeFlag ∧
    (dmaPushList C bs s).timerArmed = s.timerArmed ∧
    (dmaPushList C bs s).dmaEnabled = true ∧
    (∀ j, j < i → (dmaPushList C bs s).buff j = s.buff j) ∧
    (∀ j, i + bs.length ≤ j → (dmaPushList C bs s).buff j = s.buff j) ∧
    (∀ (j : Nat) (h : j < bs.length), (dmaPushList C bs s).buff (i + j) = bs.get ⟨j, h⟩) ∧
    (i + bs.length = C → (dmaPushList C bs s).dmaCount = C ∧ (dmaPushList C bs s).ftf = true) ∧
    (i + bs.length < C → (dmaPushList C bs s).dmaCount = C - (i + bs.length) ∧
      (dmaPushList C bs s).ftf = s.ftf) := by
  induction bs with
  | nil =>
    intro i s hen hcnt hi hlen
    refine ⟨rfl, rfl, rfl, hen, ?_, ?_, ?_, ?_, ?_⟩
    · intro j _; rfl
    · intro j _; rfl
    · intro j h; exact absurd h (by simp)
    · intro h; simp at h; omega
    · intro _; exact ⟨by simpa [dmaPushList] using hcnt, rfl⟩
  | cons b rest ih =>
    intro i s hen hcnt hi hlen
    have hstep := dmaPush_at C i b s hen hcnt hi
    by_cases hfull : i + 1 = C
    · -- this byte fills the buffer; the remaining burst must be empty
      have hrest : rest.length = 0 := by
        have := hlen; simp [List.length_cons] at this; omega
      have hrnil : rest = [] := List.eq_nil_of_length_eq_zero hrest
      subst hrnil
      rw [if_pos hfull] at hstep
      have hres : dmaPushList C (b :: []) s =
          { s with buff := updBuff s.buff i b, dmaCount := C, ftf := true } := by
        simp [dmaPushList, hstep]
      rw [hres]
      refine ⟨rfl, rfl, rfl, hen, ?_, ?_, ?_, ?_, ?_⟩
      · intro j hj; simp [updBuff]; omega
      · intro j hj; simp [List.length_cons] at hj; simp [updBuff]; omega
      · intro j hjl
        simp [List.length_cons] at hjl
        have hj0 : j = 0 := by omega
        subst hj0
        simp [updBuff]
      · intro _; exact ⟨rfl, rfl⟩
      · intro hc; simp [List.length_cons] at hc; omega
    · -- counter drops to C - (i+1); continue the burst from offset i+1
      rw [if_neg hfull] at hstep
      have hi1 : i + 1 < C := by omega
      have hres : dmaPushList C (b :: rest) s =
          dmaPushList C rest { s with buff := updBuff s.buff i b, dmaCount := C - (i + 1) } := by
        simp [dmaPushList, hstep]
      rw [hres]
      have hrec := ih (i + 1) { s with buff := updBuff s.buff i b, dmaCount := C - (i + 1) }
        hen rfl hi1 (by simp [List.length_cons] at hlen; omega)
      obtain ⟨h1, h2, h3, h4, h5, h6, h7, h8, h9⟩ := hrec
      refine ⟨h1, h2, h3, h4, ?_, ?_, ?_, ?_, ?_⟩
      · intro j hj
        rw [h5 j (by omega)]
        simp [updBuff]; omega
      · intro j hj
        simp [List.length_cons] at hj
        rw [h6 j (by omega)]
        simp [updBuff]; omega
      · intro j hjl
        cases j with
        | zero =>
          have := h5 i (by omega)
          simpa [updBuff] using this
        | succ j2 =>
          have hjl2 : j2 < rest.length := by simp [List.length_cons] at hjl; omega
          have := h7 j2 hjl2
          have harr : i + (j2 + 1) = (i + 1) + j2 := by omega
          rw [harr, this]
          rfl
      · intro hc
        simp [List.length_cons] at hc
        exact h8 (by omega)
      · intro hc
        have hlc : (b :: rest).length = rest.length + 1 := rfl
        rw [hlc] at hc
        have hres2 := h9 (by omega)
        refine ⟨?_, hres2.2⟩
        rw [hres2.1, hlc]
        congr 1
        omega

/-- Moving a burst into a link whose counter is freshly programmed to C
(right after init or re-arm): globals and timer untouched, the burst sits at
offsets 0..len-1, and the counter/FTF read back as the circular hardware
dictates. -/
theorem dmaPushList_fresh (C : Nat) (bs : List Nat) (s : LinkState)
    (hC : 0 < C) (hen : s.dmaEnabled = true) (hcnt : s.dmaCount = C)
    (hftf : s.ftf = false) (hlen : bs.length ≤ C) :
    (dmaPushList C bs s).recvLength = s.recvLength ∧
    (dmaPushList C bs s).completeFlag = s.completeFlag ∧
    (dmaPushList C bs s).timerArmed = s.timerArmed ∧
    (dmaPushList C bs s).dmaEnabled = true ∧
    (∀ (j : Nat) (h : j < bs.length), (dmaPushList C bs s).buff j = bs.get ⟨j, h⟩) ∧
    (bs.length = C → (dmaPushList C bs s).dmaCount = C ∧ (dmaPushList C bs s).ftf = true) ∧
    (bs.length < C → (dmaPushList C bs s).dmaCount = C - bs.length ∧
      (dmaPushList C bs s).ftf = false) := by
  have hmain := dmaPushList_go C bs 0 s hen (by simpa using hcnt) hC (by simpa using hlen)
  obtain ⟨h1, h2, h3, h4, _, _, h7, h8, h9⟩ := hmain
  refine ⟨h1, h2, h3, h4, ?_, ?_, ?_⟩
  · intro j h
    have := h7 j h
    simpa using this
  · intro h
    have := h8 (by simpa using h)
    simpa using this
  · intro h
    have := h9 (by simpa using h)
    rw [hftf] at this
    simpa using this

/-- Idle-line handler when the bail-out guard does not fire: the snapshot
length is stored and the confirmation timer is (re)armed from a zeroed
counter. -/
theorem idleIrqBody_arm (C : Nat) (s : LinkState)
    (h : ¬(C - s.dmaCount = 0 ∧ s.ftf = false)) :
    idleIrqBody C s = { s with recvLength := C - s.dmaCount, timerArmed := true } := by
  simp only [idleIrqBody]
  rw [if_neg h]

/-- Idle-line handler when zero bytes have been moved and FTF is clear: the
length variable is written (to 0) but the handler returns before touching the
timer. -/
theorem idleIrqBody_bail (C : Nat) (s : LinkState)
    (h1 : C - s.dmaCount = 0) (h2 : s.ftf = false) :
    idleIrqBody C s = { s with recvLength := 0 } := by
  simp only [idleIrqBody]
  rw [if_pos ⟨h1, h2⟩, h1]

/-- Timer-elapse handler, consistent-snapshot nonzero-length branch:
terminator appended at the stored length, completion flag raised, single-shot
timer stopped. -/
theorem timerIrqBody_final_pos (C : Nat) (s : LinkState) (harm : s.timerArmed = true)
    (hsnap : s.recvLength = C - s.dmaCount) (hnz : ¬(s.recvLength = 0)) :
    timerIrqBody C s = { s with
      timerArmed := false, buff := updBuff s.buff s.recvLength 0, completeFlag := 1 } := by
  simp only [timerIrqBody, harm, if_true]
  rw [if_pos hsnap, if_neg hnz]

/-- Timer-elapse handler, consistent-snapshot zero-length branch (full-buffer
wraparound case): length is set to C, terminator appended at C, completion
flag raised, timer stopped. -/
theorem timerIrqBody_final_zero (C : Nat) (s : LinkState) (harm : s.timerArmed = true)
    (hsnap : s.recvLength = C - s.dmaCount) (hz : s.recvLength = 0) :
    timerIrqBody C s = { s with
      timerArmed := false, recvLength := C, buff := updBuff s.buff C 0,
      completeFlag := 1 } := by
  simp only [timerIrqBody, harm, if_true]
  rw [if_pos hsnap, if_pos hz]

/-- Timer-elapse handler when the stored snapshot no longer matches the
current C - CNDT (bytes moved after the arming idle event): nothing is
finalized, the timer just stops. -/
theorem timerIrqBody_stale (C : Nat) (s : LinkState) (harm : s.timerArmed = true)
    (hsnap : ¬(s.recvLength = C - s.dmaCount)) :
    timerIrqBody C s = { s with timerArmed := false } := by
  simp only [timerIrqBody, harm, if_true]
  rw [if_neg hsnap]

/-- Timer-elapse event cannot fire while the single-shot timer is not armed. -/
theorem timerIrqBody_unarmed (C : Nat) (s : LinkState) (harm : s.timerArmed = false) :
    timerIrqBody C s = s := by
  simp [timerIrqBody, harm]

/-- Idle event that arms the timer, followed by an undisturbed elapse, when the
snapshot C - CNDT is nonzero: finalization with the snapshot length. -/
theorem idleElapse_arm_pos (C : Nat) (s : LinkState)
    (hguard : ¬(C - s.dmaCount = 0 ∧ s.ftf = false)) (hnz : ¬(C - s.dmaCount = 0)) :
    timerIrqBody C (idleIrqBody C s) =
      { s with
        recvLength := C - s.dmaCount, timerArmed := false,
        buff := updBuff s.buff (C - s.dmaCount) 0, completeFlag := 1 } := by
  rw [idleIrqBody_arm C s hguard]
  exact timerIrqBody_final_pos C _ rfl rfl hnz

/-- Idle event that arms the timer (possible with zero snapshot only when FTF
is raised), followed by an undisturbed elapse: full-buffer finalization with
length C. -/
theorem idleElapse_arm_zero (C : Nat) (s : LinkState)
    (hguard : ¬(C - s.dmaCount = 0 ∧ s.ftf = false)) (hz : C - s.dmaCount = 0) :
    timerIrqBody C (idleIrqBody C s) =
      { s with
        recvLength := C, timerArmed := false, buff := updBuff s.buff C 0,
        completeFlag := 1 } := by
  rw [idleIrqBody_arm C s hguard]
  exact timerIrqBody_final_zero C _ rfl rfl hz

/-- Full behaviour of one send/silence cycle started on a freshly (re)armed
link: for any burst of length k with 0 < k ≤ C, the completion flag ends at 1,
the final length is k, and the k received bytes sit unchanged at offsets
0..k-1. -/
theorem sendSilenceCycle_spec (C : Nat) (bs : List Nat) (s : LinkState)
    (hC : 0 < C) (hen : s.dmaEnabled = true) (hcnt : s.dmaCount = C)
    (hftf : s.ftf = false) (hk : 0 < bs.length) (hkC : bs.length ≤ C) :
    (sendSilenceCycle C bs s).completeFlag = 1 ∧
    (sendSilenceCycle C bs s).recvLength = bs.length ∧
    (∀ (j : Nat) (h : j < bs.length), (sendSilenceCycle C bs s).buff j = bs.get ⟨j, h⟩) := by
  obtain ⟨hp1, hp2, hp3, hp4, hpb, hfull, hpart⟩ :=
    dmaPushList_fresh C bs s hC hen hcnt hftf hkC
  rcases Nat.lt_or_ge bs.length C with hlt | hge
  · -- partial fill: 0 < k < C
    obtain ⟨hd, _⟩ := hpart hlt
    have hlen2 : C - (dmaPushList C bs s).dmaCount = bs.length := by
      rw [hd]; exact Nat.sub_sub_self (Nat.le_of_lt hlt)
    have hguard : ¬(C - (dmaPushList C bs s).dmaCount = 0 ∧
        (dmaPushList C bs s).ftf = false) := by
      rw [hlen2]
      rintro ⟨h0, _⟩
      omega
    have hnz : ¬(C - (dmaPushList C bs s).dmaCount = 0) := by
      rw [hlen2]; omega
    simp only [sendSilenceCycle]
    rw [idleElapse_arm_pos C _ hguard hnz]
    refine ⟨rfl, hlen2, ?_⟩
    intro j h
    show updBuff (dmaPushList C bs s).buff (C - (dmaPushList C bs s).dmaCount) 0 j =
      bs.get ⟨j, h⟩
    rw [hlen2]
    simp only [updBuff]
    rw [if_neg (by omega)]
    exact hpb j h
  · -- exact full fill: k = C, wraparound aliasing resolved by the FTF flag
    have heq : bs.length = C := Nat.le_antisymm hkC hge
    obtain ⟨hd, hf⟩ := hfull heq
    have hlen0 : C - (dmaPushList C bs s).dmaCount = 0 := by rw [hd]; omega
    have hguard : ¬(C - (dmaPushList C bs s).dmaCount = 0 ∧
        (dmaPushList C bs s).ftf = false) := by
      simp [hf]
    simp only [sendSilenceCycle]
    rw [idleElapse_arm_zero C _ hguard hlen0]
    refine ⟨rfl, heq.symm, ?_⟩
    intro j h
    show updBuff (dmaPushList C bs s).buff C 0 j = bs.get ⟨j, h⟩
    simp only [updBuff]
    rw [if_neg (by omega)]
    exact hpb j h

/-- Claim C1: for every k with 0 < k ≤ C (C = 1024), if the transport moves
exactly k bytes into an empty receive buffer, the idle-line event then fires,
and the confirmation timer elapses with no further bytes or idle events,
finalization sets the completion flag to 1 and the received length to k, with
the k received bytes unchanged in the buffer. -/
theorem C1_frame_of_k_bytes (bs : List Nat) (hk : 0 < bs.length)
    (hkC : bs.length ≤ BSP_USART_RECEIVE_LENGTH) :
    (sendSilenceCycle BSP_USART_RECEIVE_LENGTH bs
        (linkInit BSP_USART_RECEIVE_LENGTH)).completeFlag = 1 ∧
    (sendSilenceCycle BSP_USART_RECEIVE_LENGTH bs
        (linkInit BSP_USART_RECEIVE_LENGTH)).recvLength = bs.length ∧
    ∀ (j : Nat) (h : j < bs.length),
      (sendSilenceCycle BSP_USART_RECEIVE_LENGTH bs
        (linkInit BSP_USART_RECEIVE_LENGTH)).buff j = bs.get ⟨j, h⟩ :=
  sendSilenceCycle_spec BSP_USART_RECEIVE_LENGTH bs (linkInit BSP_USART_RECEIVE_LENGTH)
    (by decide) rfl rfl rfl hk hkC

/-- Witness for C1 at the concrete burst [7, 8, 9]. -/
theorem C1_witness :
    0 < ([7, 8, 9] : List Nat).length ∧
    ([7, 8, 9] : List Nat).length ≤ BSP_USART_RECEIVE_LENGTH ∧
    (sendSilenceCycle BSP_USART_RECEIVE_LENGTH [7, 8, 9]
        (linkInit BSP_USART_RECEIVE_LENGTH)).completeFlag = 1 ∧
    (sendSilenceCycle BSP_USART_RECEIVE_LENGTH [7, 8, 9]
        (linkInit BSP_USART_RECEIVE_LENGTH)).recvLength = 3 :=
  ⟨by decide, by decide,
    (C1_frame_of_k_bytes [7, 8, 9] (by decide) (by decide)).1,
    (C1_frame_of_k_bytes [7, 8, 9] (by decide) (by decide)).2.1⟩

/-- Claim C2: if exactly C bytes were transferred, the circular DMA counter has
reloaded to C (so capacity_used computes to 0, aliasing the empty case) and the
full-transfer flag is set; finalization then sets ReceivedLength to C, not 0,
and raises the completion flag. -/
theorem C2_full_buffer_disambiguation (bs : List Nat)
    (hlen : bs.length = BSP_USART_RECEIVE_LENGTH) :
    (dmaPushList BSP_USART_RECEIVE_LENGTH bs
        (linkInit BSP_USART_RECEIVE_LENGTH)).dmaCount = BSP_USART_RECEIVE_LENGTH ∧
    (dmaPushList BSP_USART_RECEIVE_LENGTH bs
        (linkInit BSP_USART_RECEIVE_LENGTH)).ftf = true ∧
    (sendSilenceCycle BSP_USART_RECEIVE_LENGTH bs
        (linkInit BSP_USART_RECEIVE_LENGTH)).recvLength = BSP_USART_RECEIVE_LENGTH ∧
    (sendSilenceCycle BSP_USART_RECEIVE_LENGTH bs
        (linkInit BSP_USART_RECEIVE_LENGTH)).completeFlag = 1 := by
  have hfresh := dmaPushList_fresh BSP_USART_RECEIVE_LENGTH bs
    (linkInit BSP_USART_RECEIVE_LENGTH) (by decide) rfl rfl rfl (Nat.le_of_eq hlen)
  have hfull := hfresh.2.2.2.2.2.1 hlen
  have hcyc := sendSilenceCycle_spec BSP_USART_RECEIVE_LENGTH bs
    (linkInit BSP_USART_RECEIVE_LENGTH) (by decide) rfl rfl rfl
    (by rw [hlen]; decide) (Nat.le_of_eq hlen)
  exact ⟨hfull.1, hfull.2, by rw [hcyc.2.1, hlen], hcyc.1⟩

/-- Witness for C2 at a concrete burst of exactly 1024 bytes. -/
theorem C2_witness :
    (List.replicate 1024 65).length = BSP_USART_RECEIVE_LENGTH ∧
    (sendSilenceCycle BSP_USART_RECEIVE_LENGTH (List.replicate 1024 65)
        (linkInit BSP_USART_RECEIVE_LENGTH)).recvLength = BSP_USART_RECEIVE_LENGTH ∧
    (sendSilenceCycle BSP_USART_RECEIVE_LENGTH (List.replicate 1024 65)
        (linkInit BSP_USART_RECEIVE_LENGTH)).completeFlag = 1 :=
  ⟨by rw [List.length_replicate]; rfl,
    (C2_full_buffer_disambiguation (List.replicate 1024 65)
      (by rw [List.length_replicate]; rfl)).2.2.1,
    (C2_full_buffer_disambiguation (List.replicate 1024 65)
      (by rw [List.length_replicate]; rfl)).2.2.2⟩

/-- Claim C3: if an idle-line event fires when zero bytes have been moved since
the last re-arm (CNDT still reads C) and the full-transfer flag is not set, the
completion flag is never raised for that event: the idle handler returns
without arming the confirmation timer, leaves the buffer and flag untouched,
and a timer-elapse cannot occur (the timer stays unarmed, so the elapse event
is a no-op). -/
theorem C3_spurious_idle_ignored (s : LinkState)
    (hcnt : s.dmaCount = BSP_USART_RECEIVE_LENGTH)
    (hftf : s.ftf = false) (harm : s.timerArmed = false) (hflag : s.completeFlag = 0) :
    (idleIrqBody BSP_USART_RECEIVE_LENGTH s).completeFlag = 0 ∧
    (idleIrqBody BSP_USART_RECEIVE_LENGTH s).timerArmed = false ∧
    (idleIrqBody BSP_USART_RECEIVE_LENGTH s).buff = s.buff ∧
    timerIrqBody BSP_USART_RECEIVE_LENGTH (idleIrqBody BSP_USART_RECEIVE_LENGTH s) =
      idleIrqBody BSP_USART_RECEIVE_LENGTH s := by
  have h0 : BSP_USART_RECEIVE_LENGTH - s.dmaCount = 0 := by
    rw [hcnt]; exact Nat.sub_self BSP_USART_RECEIVE_LENGTH
  rw [idleIrqBody_bail BSP_USART_RECEIVE_LENGTH s h0 hftf]
  exact ⟨hflag, harm, rfl, timerIrqBody_unarmed BSP_USART_RECEIVE_LENGTH _ harm⟩

/-- Witness for C3 at the freshly initialised link. -/
theorem C3_witness :
    (idleIrqBody BSP_USART_RECEIVE_LENGTH
        (linkInit BSP_USART_RECEIVE_LENGTH)).completeFlag = 0 ∧
    (idleIrqBody BSP_USART_RECEIVE_LENGTH
        (linkInit BSP_USART_RECEIVE_LENGTH)).timerArmed = false ∧
    (idleIrqBody BSP_USART_RECEIVE_LENGTH
        (linkInit BSP_USART_RECEIVE_LENGTH)).buff =
      (linkInit BSP_USART_RECEIVE_LENGTH).buff ∧
    timerIrqBody BSP_USART_RECEIVE_LENGTH
        (idleIrqBody BSP_USART_RECEIVE_LENGTH (linkInit BSP_USART_RECEIVE_LENGTH)) =
      idleIrqBody BSP_USART_RECEIVE_LENGTH (linkInit BSP_USART_RECEIVE_LENGTH) :=
  C3_spurious_idle_ignored (linkInit BSP_USART_RECEIVE_LENGTH) rfl rfl rfl rfl

/-- Claim C9: the three links are independent: each idle handler, each timer
finalization handler and each re-arm function mutates only its own link's
component of the system state and leaves the other two links (buffer, length,
flag, DMA registers, timer) unchanged. -/
theorem C9_link_independence (g : SystemState) :
    (BSP_USART_IRQHandler g).terminal = g.terminal ∧
    (BSP_USART_IRQHandler g).uart4 = g.uart4 ∧
    (USART1_IRQHandler g).usart0 = g.usart0 ∧
    (USART1_IRQHandler g).uart4 = g.uart4 ∧
    (UART4_IRQHandler g).usart0 = g.usart0 ∧
    (UART4_IRQHandler g).terminal = g.terminal ∧
    (TIMER5_DAC_UDR_IRQHandler g).terminal = g.terminal ∧
    (TIMER5_DAC_UDR_IRQHandler g).uart4 = g.uart4 ∧
    (TIMER6_IRQHandler g).usart0 = g.usart0 ∧
    (TIMER6_IRQHandler g).uart4 = g.uart4 ∧
    (TIMER15_IRQHandler g).usart0 = g.usart0 ∧
    (TIMER15_IRQHandler g).terminal = g.terminal ∧
    (usart_rx_dma_receive_reset g).terminal = g.terminal ∧
    (usart_rx_dma_receive_reset g).uart4 = g.uart4 ∧
    (usart_terminal_rx_dma_receive_reset g).usart0 = g.usart0 ∧
    (usart_terminal_rx_dma_receive_reset g).uart4 = g.uart4 ∧
    (uart4_rx_dma_receive_reset g).usart0 = g.usart0 ∧
    (uart4_rx_dma_receive_reset g).terminal = g.terminal :=
  ⟨rfl, rfl, rfl, rfl, rfl, rfl, rfl, rfl, rfl, rfl, rfl, rfl, rfl, rfl, rfl, rfl, rfl, rfl⟩

/-- Counterexample to claim C10 as stated: the idle-line handler (usart.c line
245) also writes the received-length variable. Concretely, after one byte is
moved into a fresh link, running the idle handler changes the length from 0 to
1 while leaving the completion flag at 0 — an operation that is neither
timer-elapse finalization nor the re-arm clear writes the variable. -/
theorem C10_counterexample :
    (dmaPush BSP_USART_RECEIVE_LENGTH 65
        (linkInit BSP_USART_RECEIVE_LENGTH)).recvLength = 0 ∧
    (idleIrqBody BSP_USART_RECEIVE_LENGTH
        (dmaPush BSP_USART_RECEIVE_LENGTH 65
          (linkInit BSP_USART_RECEIVE_LENGTH))).recvLength = 1 ∧
    (idleIrqBody BSP_USART_RECEIVE_LENGTH
        (dmaPush BSP_USART_RECEIVE_LENGTH 65
          (linkInit BSP_USART_RECEIVE_LENGTH))).completeFlag = 0 := by
  decide

/-- Claim C10, amended: the received-length variable is written by the
idle-line handler (always, to the current C - CNDT, even on the bail-out
path), by timer-elapse finalization (to C exactly when the consistent snapshot
is zero, otherwise kept), and zeroed by re-arm; the transport's byte moves
never write it. -/
theorem C10_recvLength_writers (C b : Nat) (s : LinkState) :
    (dmaPush C b s).recvLength = s.recvLength ∧
    (idleIrqBody C s).recvLength = C - s.dmaCount ∧
    (rxDmaResetBody C s).recvLength = 0 ∧
    (timerIrqBody C s).recvLength =
      (if s.timerArmed = true ∧ s.recvLength = C - s.dmaCount ∧ s.recvLength = 0
        then C else s.recvLength) := by
  refine ⟨?_, ?_, rfl, ?_⟩
  · unfold dmaPush
    split
    · split <;> rfl
    · rfl
  · unfold idleIrqBody
    split <;> rfl
  · by_cases h1 : s.timerArmed = true
    · by_cases h2 : s.recvLength = C - s.dmaCount
      · by_cases h3 : s.recvLength = 0
        · rw [timerIrqBody_final_zero C s h1 h2 h3, if_pos ⟨h1, h2, h3⟩]
        · rw [timerIrqBody_final_pos C s h1 h2 h3,
            if_neg (by rintro ⟨_, _, hc⟩; exact h3 hc)]
      · rw [timerIrqBody_stale C s h1 h2,
          if_neg (by rintro ⟨_, hc, _⟩; exact h2 hc)]
    · rw [timerIrqBody_unarmed C s (by simpa using h1),
        if_neg (by rintro ⟨hc, _, _⟩; exact h1 hc)]

/-- Field-wise description of the arming branch of the idle handler. -/
theorem idleIrqBody_arm_fields (C : Nat) (s : LinkState)
    (h : ¬(C - s.dmaCount = 0 ∧ s.ftf = false)) :
    (idleIrqBody C s).recvLength = C - s.dmaCount ∧
    (idleIrqBody C s).timerArmed = true ∧
    (idleIrqBody C s).buff = s.buff ∧
    (idleIrqBody C s).completeFlag = s.completeFlag ∧
    (idleIrqBody C s).dmaCount = s.dmaCount ∧
    (idleIrqBody C s).ftf = s.ftf ∧
    (idleIrqBody C s).dmaEnabled = s.dmaEnabled := by
  rw [idleIrqBody_arm C s h]
  exact ⟨rfl, rfl, rfl, rfl, rfl, rfl, rfl⟩

/-- In every branch of the timer-elapse handler the DMA counter is untouched
and the length either stays or becomes C. -/
theorem timerIrqBody_cases (C : Nat) (s : LinkState) :
    (timerIrqBody C s).dmaCount = s.dmaCount ∧
    ((timerIrqBody C s).recvLength = s.recvLength ∨
      (timerIrqBody C s).recvLength = C) := by
  by_cases h1 : s.timerArmed = true
  · by_cases h2 : s.recvLength = C - s.dmaCount
    · by_cases h3 : s.recvLength = 0
      · rw [timerIrqBody_final_zero C s h1 h2 h3]; exact ⟨rfl, Or.inr rfl⟩
      · rw [timerIrqBody_final_pos C s h1 h2 h3]; exact ⟨rfl, Or.inl rfl⟩
    · rw [timerIrqBody_stale C s h1 h2]; exact ⟨rfl, Or.inl rfl⟩
  · rw [timerIrqBody_unarmed C s (by simpa using h1)]; exact ⟨rfl, Or.inl rfl⟩

/-- A DMA transfer keeps the remaining counter within [0, C] and never writes
the length variable. -/
theorem dmaPush_count_le (C b : Nat) (s : LinkState) (h : s.dmaCount ≤ C) :
    (dmaPush C b s).dmaCount ≤ C ∧ (dmaPush C b s).recvLength = s.recvLength := by
  unfold dmaPush
  split
  · split
    · exact ⟨Nat.le_refl C, rfl⟩
    · exact ⟨Nat.le_trans (Nat.sub_le s.dmaCount 1) h, rfl⟩
  · exact ⟨h, rfl⟩

/-- A burst of DMA transfers keeps the remaining counter within [0, C] and
never writes the length variable. -/
theorem dmaPushList_count_le (C : Nat) (bs : List Nat) :
    ∀ s : LinkState, s.dmaCount ≤ C →
    (dmaPushList C bs s).dmaCount ≤ C ∧
    (dmaPushList C bs s).recvLength = s.recvLength := by
  induction bs with
  | nil => intro s h; exact ⟨h, rfl⟩
  | cons b rest ih =>
    intro s h
    have hp := dmaPush_count_le C b s h
    have hr := ih (dmaPush C b s) hp.1
    exact ⟨hr.1, hr.2.trans hp.2⟩

/-- Behaviour of the burst/pause/burst/pause scenario on a freshly (re)armed
link: after the second idle event the flag is still clear and the timer is
armed; an undisturbed elapse then yields exactly one frame of the combined
length. -/
theorem twoBurstDebounce_spec (C : Nat) (bs1 bs2 : List Nat) (s : LinkState)
    (hC : 0 < C) (hen : s.dmaEnabled = true) (hcnt : s.dmaCount = C)
    (hftf : s.ftf = false) (hflag : s.completeFlag = 0)
    (h1 : 0 < bs1.length) (h2 : 0 < bs2.length)
    (hsum : bs1.length + bs2.length ≤ C) :
    (twoBurstDebounce C bs1 bs2 s).completeFlag = 0 ∧
    (twoBurstDebounce C bs1 bs2 s).timerArmed = true ∧
    (timerIrqBody C (twoBurstDebounce C bs1 bs2 s)).completeFlag = 1 ∧
    (timerIrqBody C (twoBurstDebounce C bs1 bs2 s)).recvLength
      = bs1.length + bs2.length := by
  have hk_lt : bs1.length < C := by omega
  obtain ⟨hp1r, hp1f, hp1t, hp1e, _, _, hp1part⟩ :=
    dmaPushList_fresh C bs1 s hC hen hcnt hftf (Nat.le_of_lt hk_lt)
  obtain ⟨hd1, hf1⟩ := hp1part hk_lt
  have hsub1 : C - (dmaPushList C bs1 s).dmaCount = bs1.length := by
    rw [hd1]; exact Nat.sub_sub_self (Nat.le_of_lt hk_lt)
  have hguard1 : ¬(C - (dmaPushList C bs1 s).dmaCount = 0 ∧
      (dmaPushList C bs1 s).ftf = false) := by
    rw [hsub1]
    rintro ⟨hz, _⟩
    omega
  obtain ⟨ha1, ha2, ha3, ha4, ha5, ha6, ha7⟩ :=
    idleIrqBody_arm_fields C (dmaPushList C bs1 s) hguard1
  obtain ⟨h2r, h2f, h2t, h2e, _, _, _, h2full, h2part⟩ :=
    dmaPushList_go C bs2 bs1.length (idleIrqBody C (dmaPushList C bs1 s))
      (by rw [ha7]; exact hp1e) (by rw [ha5]; exact hd1) hk_lt hsum
  have hp2flag : (dmaPushList C bs2
      (idleIrqBody C (dmaPushList C bs1 s))).completeFlag = 0 := by
    rw [h2f, ha4, hp1f, hflag]
  rcases Nat.lt_or_ge (bs1.length + bs2.length) C with hlt | hge
  · obtain ⟨hd2, hf2⟩ := h2part hlt
    have hsub2 : C - (dmaPushList C bs2
        (idleIrqBody C (dmaPushList C bs1 s))).dmaCount
        = bs1.length + bs2.length := by
      rw [hd2]; exact Nat.sub_sub_self (Nat.le_of_lt hlt)
    have hguard2 : ¬(C - (dmaPushList C bs2
        (idleIrqBody C (dmaPushList C bs1 s))).dmaCount = 0 ∧
        (dmaPushList C bs2 (idleIrqBody C (dmaPushList C bs1 s))).ftf = false) := by
      rw [hsub2]
      rintro ⟨hz, _⟩
      omega
    obtain ⟨hb1, hb2, _, hb4, hb5, _, _⟩ := idleIrqBody_arm_fields C
      (dmaPushList C bs2 (idleIrqBody C (dmaPushList C bs1 s))) hguard2
    have hmidflag : (twoBurstDebounce C bs1 bs2 s).completeFlag = 0 := by
      show (idleIrqBody C (dmaPushList C bs2
        (idleIrqBody C (dmaPushList C bs1 s)))).completeFlag = 0
      rw [hb4]; exact hp2flag
    have hmidarm : (twoBurstDebounce C bs1 bs2 s).timerArmed = true := hb2
    have hsnap : (twoBurstDebounce C bs1 bs2 s).recvLength =
        C - (twoBurstDebounce C bs1 bs2 s).dmaCount := by
      show (idleIrqBody C (dmaPushList C bs2
          (idleIrqBody C (dmaPushList C bs1 s)))).recvLength =
        C - (idleIrqBody C (dmaPushList C bs2
          (idleIrqBody C (dmaPushList C bs1 s)))).dmaCount
      rw [hb1, hb5]
    have hnz : ¬((twoBurstDebounce C bs1 bs2 s).recvLength = 0) := by
      show ¬((idleIrqBody C (dmaPushList C bs2
        (idleIrqBody C (dmaPushList C bs1 s)))).recvLength = 0)
      rw [hb1, hsub2]
      omega
    have hfin := timerIrqBody_final_pos C (twoBurstDebounce C bs1 bs2 s)
      hmidarm hsnap hnz
    refine ⟨hmidflag, hmidarm, ?_, ?_⟩
    · rw [hfin]
    · rw [hfin]
      show (idleIrqBody C (dmaPushList C bs2
        (idleIrqBody C (dmaPushList C bs1 s)))).recvLength
        = bs1.length + bs2.length
      rw [hb1, hsub2]
  · have heq : bs1.length + bs2.length = C := Nat.le_antisymm hsum hge
    obtain ⟨hd2, hf2⟩ := h2full heq
    have hsub2 : C - (dmaPushList C bs2
        (idleIrqBody C (dmaPushList C bs1 s))).dmaCount = 0 := by
      rw [hd2]; exact Nat.sub_self C
    have hguard2 : ¬(C - (dmaPushList C bs2
        (idleIrqBody C (dmaPushList C bs1 s))).dmaCount = 0 ∧
        (dmaPushList C bs2 (idleIrqBody C (dmaPushList C bs1 s))).ftf = false) := by
      rw [hf2]
      simp
    obtain ⟨hb1, hb2, _, hb4, hb5, _, _⟩ := idleIrqBody_arm_fields C
      (dmaPushList C bs2 (idleIrqBody C (dmaPushList C bs1 s))) hguard2
    have hmidflag : (twoBurstDebounce C bs1 bs2 s).completeFlag = 0 := by
      show (idleIrqBody C (dmaPushList C bs2
        (idleIrqBody C (dmaPushList C bs1 s)))).completeFlag = 0
      rw [hb4]; exact hp2flag
    have hmidarm : (twoBurstDebounce C bs1 bs2 s).timerArmed = true := hb2
    have hsnap : (twoBurstDebounce C bs1 bs2 s).recvLength =
        C - (twoBurstDebounce C bs1 bs2 s).dmaCount := by
      show (idleIrqBody C (dmaPushList C bs2
          (idleIrqBody C (dmaPushList C bs1 s)))).recvLength =
        C - (idleIrqBody C (dmaPushList C bs2
          (idleIrqBody C (dmaPushList C bs1 s)))).dmaCount
      rw [hb1, hb5]
    have hz : (twoBurstDebounce C bs1 bs2 s).recvLength = 0 := by
      show (idleIrqBody C (dmaPushList C bs2
        (idleIrqBody C (dmaPushList C bs1 s)))).recvLength = 0
      rw [hb1, hsub2]
    have hfin := timerIrqBody_final_zero C (twoBurstDebounce C bs1 bs2 s)
      hmidarm hsnap hz
    refine ⟨hmidflag, hmidarm, ?_, ?_⟩
    · rw [hfin]
    · rw [hfin]
      show C = bs1.length + bs2.length
      omega

/-- Counterexample to claim C4 as stated: the timer-elapse handler does not
finalize on every elapse from a DEBOUNCING (armed) state. Trace: one byte
arrives, the idle event arms the timer with snapshot 1, a second byte arrives
before the elapse; when the timer then elapses, the guard at timer.c line 218
(stored length 1 vs current capacity used 2) fails, so the completion flag
stays 0, the length stays 1, and no terminator is written (offset 1 still
holds the second byte 66). -/
theorem C4_counterexample :
    (dmaPush BSP_USART_RECEIVE_LENGTH 66
      (idleIrqBody BSP_USART_RECEIVE_LENGTH
        (dmaPush BSP_USART_RECEIVE_LENGTH 65
          (linkInit BSP_USART_RECEIVE_LENGTH)))).timerArmed = true ∧
    (timerIrqBody BSP_USART_RECEIVE_LENGTH
      (dmaPush BSP_USART_RECEIVE_LENGTH 66
        (idleIrqBody BSP_USART_RECEIVE_LENGTH
          (dmaPush BSP_USART_RECEIVE_LENGTH 65
            (linkInit BSP_USART_RECEIVE_LENGTH))))).completeFlag = 0 ∧
    (timerIrqBody BSP_USART_RECEIVE_LENGTH
      (dmaPush BSP_USART_RECEIVE_LENGTH 66
        (idleIrqBody BSP_USART_RECEIVE_LENGTH
          (dmaPush BSP_USART_RECEIVE_LENGTH 65
            (linkInit BSP_USART_RECEIVE_LENGTH))))).recvLength = 1 ∧
    (timerIrqBody BSP_USART_RECEIVE_LENGTH
      (dmaPush BSP_USART_RECEIVE_LENGTH 66
        (idleIrqBody BSP_USART_RECEIVE_LENGTH
          (dmaPush BSP_USART_RECEIVE_LENGTH 65
            (linkInit BSP_USART_RECEIVE_LENGTH))))).buff 1 = 66 := by
  decide

/-- Claim C4, amended: when the confirmation timer elapses in a DEBOUNCING
(armed) state and the stored length snapshot still equals the current capacity
used C - CNDT (no bytes moved since the arming idle event), the link
finalizes: completion flag set, timer stopped, length kept (or promoted to C
in the zero/full-buffer case), terminator appended at the final length. If
bytes did move since the snapshot, the elapse is ignored. -/
theorem C4_elapse_finalizes_when_snapshot_consistent (C : Nat) (s : LinkState)
    (harm : s.timerArmed = true) (hsnap : s.recvLength = C - s.dmaCount) :
    (timerIrqBody C s).completeFlag = 1 ∧
    (timerIrqBody C s).timerArmed = false ∧
    (timerIrqBody C s).recvLength = (if s.recvLength = 0 then C else s.recvLength) ∧
    (timerIrqBody C s).buff = updBuff s.buff ((timerIrqBody C s).recvLength) 0 := by
  by_cases hz : s.recvLength = 0
  · rw [timerIrqBody_final_zero C s harm hsnap hz]
    exact ⟨rfl, rfl, by rw [if_pos hz], rfl⟩
  · rw [timerIrqBody_final_pos C s harm hsnap hz]
    exact ⟨rfl, rfl, by rw [if_neg hz], rfl⟩

/-- Witness for the amended C4 at the concrete armed state probeArmed. -/
theorem C4_witness :
    probeArmed.timerArmed = true ∧
    probeArmed.recvLength = BSP_USART_RECEIVE_LENGTH - probeArmed.dmaCount ∧
    (timerIrqBody BSP_USART_RECEIVE_LENGTH probeArmed).completeFlag = 1 ∧
    (timerIrqBody BSP_USART_RECEIVE_LENGTH probeArmed).timerArmed = false ∧
    (timerIrqBody BSP_USART_RECEIVE_LENGTH probeArmed).recvLength =
      (if probeArmed.recvLength = 0 then BSP_USART_RECEIVE_LENGTH
        else probeArmed.recvLength) ∧
    (timerIrqBody BSP_USART_RECEIVE_LENGTH probeArmed).buff =
      updBuff probeArmed.buff
        ((timerIrqBody BSP_USART_RECEIVE_LENGTH probeArmed).recvLength) 0 :=
  ⟨rfl, by decide,
    (C4_elapse_finalizes_when_snapshot_consistent BSP_USART_RECEIVE_LENGTH probeArmed
      rfl (by decide)).1,
    (C4_elapse_finalizes_when_snapshot_consistent BSP_USART_RECEIVE_LENGTH probeArmed
      rfl (by decide)).2.1,
    (C4_elapse_finalizes_when_snapshot_consistent BSP_USART_RECEIVE_LENGTH probeArmed
      rfl (by decide)).2.2.1,
    (C4_elapse_finalizes_when_snapshot_consistent BSP_USART_RECEIVE_LENGTH probeArmed
      rfl (by decide)).2.2.2⟩

/-- Claim C5: k bytes, an idle event, m more bytes before the timer elapses, a
second idle event (which restarts the countdown), then an undisturbed elapse:
the result is exactly one completed frame of length k + m — the flag is still
clear after the second idle event and is raised exactly once, by the final
elapse. -/
theorem C5_debounce_coalesces (bs1 bs2 : List Nat) (h1 : 0 < bs1.length)
    (h2 : 0 < bs2.length)
    (hsum : bs1.length + bs2.length ≤ BSP_USART_RECEIVE_LENGTH) :
    (twoBurstDebounce BSP_USART_RECEIVE_LENGTH bs1 bs2
        (linkInit BSP_USART_RECEIVE_LENGTH)).completeFlag = 0 ∧
    (twoBurstDebounce BSP_USART_RECEIVE_LENGTH bs1 bs2
        (linkInit BSP_USART_RECEIVE_LENGTH)).timerArmed = true ∧
    (timerIrqBody BSP_USART_RECEIVE_LENGTH
        (twoBurstDebounce BSP_USART_RECEIVE_LENGTH bs1 bs2
          (linkInit BSP_USART_RECEIVE_LENGTH))).completeFlag = 1 ∧
    (timerIrqBody BSP_USART_RECEIVE_LENGTH
        (twoBurstDebounce BSP_USART_RECEIVE_LENGTH bs1 bs2
          (linkInit BSP_USART_RECEIVE_LENGTH))).recvLength
      = bs1.length + bs2.length :=
  twoBurstDebounce_spec BSP_USART_RECEIVE_LENGTH bs1 bs2
    (linkInit BSP_USART_RECEIVE_LENGTH) (by decide) rfl rfl rfl rfl h1 h2 hsum

/-- Witness for C5 at the concrete bursts [1] and [2, 3]. -/
theorem C5_witness :
    0 < ([1] : List Nat).length ∧ 0 < ([2, 3] : List Nat).length ∧
    ([1] : List Nat).length + ([2, 3] : List Nat).length ≤ BSP_USART_RECEIVE_LENGTH ∧
    (twoBurstDebounce BSP_USART_RECEIVE_LENGTH [1] [2, 3]
        (linkInit BSP_USART_RECEIVE_LENGTH)).completeFlag = 0 ∧
    (timerIrqBody BSP_USART_RECEIVE_LENGTH
        (twoBurstDebounce BSP_USART_RECEIVE_LENGTH [1] [2, 3]
          (linkInit BSP_USART_RECEIVE_LENGTH))).completeFlag = 1 ∧
    (timerIrqBody BSP_USART_RECEIVE_LENGTH
        (twoBurstDebounce BSP_USART_RECEIVE_LENGTH [1] [2, 3]
          (linkInit BSP_USART_RECEIVE_LENGTH))).recvLength = 3 :=
  ⟨by decide, by decide, by decide,
    (C5_debounce_coalesces [1] [2, 3] (by decide) (by decide) (by decide)).1,
    (C5_debounce_coalesces [1] [2, 3] (by decide) (by decide) (by decide)).2.2.1,
    (C5_debounce_coalesces [1] [2, 3] (by decide) (by decide) (by decide)).2.2.2⟩

/-- Claim C6: the re-arm operation (modelled as the ordered composition
disable channel, zero length and flag, clear DMA flags, reprogram counter to
C, re-enable channel) leaves the link with the flag clear, length zero, the
counter expecting C bytes from the buffer origin, FTF clear, the channel
enabled and the buffer untouched; a subsequent send/silence cycle then
produces a fresh frame of the expected length. -/
theorem C6_rearm_resets_and_fresh_cycle (s : LinkState) (bs : List Nat)
    (hk : 0 < bs.length) (hkC : bs.length ≤ BSP_USART_RECEIVE_LENGTH) :
    (rxDmaResetBody BSP_USART_RECEIVE_LENGTH s).completeFlag = 0 ∧
    (rxDmaResetBody BSP_USART_RECEIVE_LENGTH s).recvLength = 0 ∧
    (rxDmaResetBody BSP_USART_RECEIVE_LENGTH s).dmaCount = BSP_USART_RECEIVE_LENGTH ∧
    (rxDmaResetBody BSP_USART_RECEIVE_LENGTH s).ftf = false ∧
    (rxDmaResetBody BSP_USART_RECEIVE_LENGTH s).dmaEnabled = true ∧
    (rxDmaResetBody BSP_USART_RECEIVE_LENGTH s).buff = s.buff ∧
    (sendSilenceCycle BSP_USART_RECEIVE_LENGTH bs
        (rxDmaResetBody BSP_USART_RECEIVE_LENGTH s)).completeFlag = 1 ∧
    (sendSilenceCycle BSP_USART_RECEIVE_LENGTH bs
        (rxDmaResetBody BSP_USART_RECEIVE_LENGTH s)).recvLength = bs.length := by
  have hc := sendSilenceCycle_spec BSP_USART_RECEIVE_LENGTH bs
    (rxDmaResetBody BSP_USART_RECEIVE_LENGTH s) (by decide) rfl rfl rfl hk hkC
  exact ⟨rfl, rfl, rfl, rfl, rfl, rfl, hc.1, hc.2.1⟩

/-- Witness for C6 at the completed-frame state probeComplete and burst [1, 2]. -/
theorem C6_witness :
    0 < ([1, 2] : List Nat).length ∧
    ([1, 2] : List Nat).length ≤ BSP_USART_RECEIVE_LENGTH ∧
    probeComplete.completeFlag = 1 ∧
    (rxDmaResetBody BSP_USART_RECEIVE_LENGTH probeComplete).completeFlag = 0 ∧
    (rxDmaResetBody BSP_USART_RECEIVE_LENGTH probeComplete).recvLength = 0 ∧
    (sendSilenceCycle BSP_USART_RECEIVE_LENGTH [1, 2]
        (rxDmaResetBody BSP_USART_RECEIVE_LENGTH probeComplete)).completeFlag = 1 ∧
    (sendSilenceCycle BSP_USART_RECEIVE_LENGTH [1, 2]
        (rxDmaResetBody BSP_USART_RECEIVE_LENGTH probeComplete)).recvLength = 2 :=
  ⟨by decide, by decide, rfl,
    (C6_rearm_resets_and_fresh_cycle probeComplete [1, 2] (by decide) (by decide)).1,
    (C6_rearm_resets_and_fresh_cycle probeComplete [1, 2] (by decide) (by decide)).2.1,
    (C6_rearm_resets_and_fresh_cycle probeComplete [1, 2] (by decide) (by decide)).2.2.2.2.2.2.1,
    (C6_rearm_resets_and_fresh_cycle probeComplete [1, 2] (by decide) (by decide)).2.2.2.2.2.2.2⟩

/-- Claim C7: every operation of the subsystem — the idle handler (which
computes the length as C minus the DMA remaining count), timer-elapse
finalization (which only ever replaces 0 by C or keeps the stored value),
re-arm (which zeroes it) and the transport's own transfers (which never touch
it) — keeps the link's received length within [0, C], assuming the hardware
counter is within [0, C]. -/
theorem C7_length_stays_in_range (C b : Nat) (bs : List Nat) (s : LinkState)
    (hcnt : s.dmaCount ≤ C) (hlen : s.recvLength ≤ C) :
    (idleIrqBody C s).recvLength ≤ C ∧ (idleIrqBody C s).dmaCount ≤ C ∧
    (timerIrqBody C s).recvLength ≤ C ∧ (timerIrqBody C s).dmaCount ≤ C ∧
    (rxDmaResetBody C s).recvLength ≤ C ∧ (rxDmaResetBody C s).dmaCount ≤ C ∧
    (dmaPush C b s).recvLength ≤ C ∧ (dmaPush C b s).dmaCount ≤ C ∧
    (dmaPushList C bs s).recvLength ≤ C ∧ (dmaPushList C bs s).dmaCount ≤ C := by
  have hidle : (idleIrqBody C s).recvLength = C - s.dmaCount ∧
      (idleIrqBody C s).dmaCount = s.dmaCount := by
    unfold idleIrqBody
    split <;> exact ⟨rfl, rfl⟩
  have htimer := timerIrqBody_cases C s
  have hpush := dmaPush_count_le C b s hcnt
  have hlist := dmaPushList_count_le C bs s hcnt
  refine ⟨?_, ?_, ?_, ?_, Nat.zero_le C, Nat.le_refl C, ?_, hpush.1, ?_, hlist.1⟩
  · rw [hidle.1]; exact Nat.sub_le C s.dmaCount
  · rw [hidle.2]; exact hcnt
  · rcases htimer.2 with hc | hc
    · rw [hc]; exact hlen
    · rw [hc]
  · rw [htimer.1]; exact hcnt
  · rw [hpush.2]; exact hlen
  · rw [hlist.2]; exact hlen

/-- Witness for C7 at the concrete armed state probeArmed. -/
theorem C7_witness :
    probeArmed.dmaCount ≤ 1024 ∧ probeArmed.recvLength ≤ 1024 ∧
    (idleIrqBody 1024 probeArmed).recvLength ≤ 1024 ∧
    (timerIrqBody 1024 probeArmed).recvLength ≤ 1024 ∧
    (rxDmaResetBody 1024 probeArmed).recvLength ≤ 1024 ∧
    (dmaPush 1024 65 probeArmed).recvLength ≤ 1024 ∧
    (dmaPushList 1024 [1, 2] probeArmed).recvLength ≤ 1024 :=
  ⟨by decide, by decide,
    (C7_length_stays_in_range 1024 65 [1, 2] probeArmed (by decide) (by decide)).1,
    (C7_length_stays_in_range 1024 65 [1, 2] probeArmed (by decide) (by decide)).2.2.1,
    (C7_length_stays_in_range 1024 65 [1, 2] probeArmed (by decide) (by decide)).2.2.2.2.1,
    (C7_length_stays_in_range 1024 65 [1, 2] probeArmed (by decide) (by decide)).2.2.2.2.2.2.1,
    (C7_length_stays_in_range 1024 65 [1, 2] probeArmed (by decide) (by decide)).2.2.2.2.2.2.2.2.1⟩

/-- Claim C8: whenever the timer-elapse handler runs on a state whose stored
length is within [0, C], the resulting length stays within [0, C] (so the
terminator index fits the C+1-byte buffer), the handler changes no buffer cell
other than the one at the final length, the cells below the final length (the
frame's bytes) are untouched, and when it actually finalizes (armed timer,
consistent snapshot) it writes exactly the NUL terminator at index equal to
the final received length. -/
theorem C8_terminator_write_safe (C : Nat) (s : LinkState)
    (hlen : s.recvLength ≤ C) :
    (timerIrqBody C s).recvLength ≤ C ∧
    (∀ j, ¬(j = (timerIrqBody C s).recvLength) →
      (timerIrqBody C s).buff j = s.buff j) ∧
    (∀ j, j < (timerIrqBody C s).recvLength → (timerIrqBody C s).buff j = s.buff j) ∧
    (s.timerArmed = true → s.recvLength = C - s.dmaCount →
      (timerIrqBody C s).buff ((timerIrqBody C s).recvLength) = 0) := by
  by_cases h1 : s.timerArmed = true
  · by_cases h2 : s.recvLength = C - s.dmaCount
    · by_cases h3 : s.recvLength = 0
      · rw [timerIrqBody_final_zero C s h1 h2 h3]
        refine ⟨Nat.le_refl C, ?_, ?_, ?_⟩
        · intro j hj
          show updBuff s.buff C 0 j = s.buff j
          simp only [updBuff]
          rw [if_neg hj]
        · intro j hj
          have hj2 : j < C := hj
          show updBuff s.buff C 0 j = s.buff j
          simp only [updBuff]
          rw [if_neg (by omega)]
        · intro _ _
          show updBuff s.buff C 0 C = 0
          simp [updBuff]
      · rw [timerIrqBody_final_pos C s h1 h2 h3]
        refine ⟨hlen, ?_, ?_, ?_⟩
        · intro j hj
          show updBuff s.buff s.recvLength 0 j = s.buff j
          simp only [updBuff]
          rw [if_neg hj]
        · intro j hj
          have hj2 : j < s.recvLength := hj
          show updBuff s.buff s.recvLength 0 j = s.buff j
          simp only [updBuff]
          rw [if_neg (by omega)]
        · intro _ _
          show updBuff s.buff s.recvLength 0 s.recvLength = 0
          simp [updBuff]
    · rw [timerIrqBody_stale C s h1 h2]
      refine ⟨hlen, fun j _ => rfl, fun j _ => rfl, ?_⟩
      intro _ hc
      exact absurd hc h2
  · rw [timerIrqBody_unarmed C s (by simpa using h1)]
    refine ⟨hlen, fun j _ => rfl, fun j _ => rfl, ?_⟩
    intro hc _
    exact absurd hc h1

/-- Witness for C8 at the concrete armed state probeArmed. -/
theorem C8_witness :
    probeArmed.recvLength ≤ 1024 ∧
    (timerIrqBody 1024 probeArmed).recvLength ≤ 1024 ∧
    (timerIrqBody 1024 probeArmed).buff
      ((timerIrqBody 1024 probeArmed).recvLength) = 0 ∧
    (timerIrqBody 1024 probeArmed).buff 0 = probeArmed.buff 0 :=
  ⟨by decide,
    (C8_terminator_write_safe 1024 probeArmed (by decide)).1,
    (C8_terminator_write_safe 1024 probeArmed (by decide)).2.2.2 rfl (by decide),
    (C8_terminator_write_safe 1024 probeArmed (by decide)).2.2.1 0 (by decide)⟩

end Gd32Frame
